import Mathlib

/-!
Shallow embedding of the DRV8214 multiplatform driver
(`src/include/DRV8214.h`, `src/src/DRV8214.cpp`).

Registers are modelled as a map from 8-bit addresses to bytes, the
in-memory `DRV8214_Config` mirror as an explicit record, and every
operation as a pure state transformer that additionally appends the
bus/diagnostic events it emits to an event trace (one event per
transport write, in issue order).

Machine integers are modelled as `Nat` with explicit `% 256` where the
C++ type system truncates (`uint8_t`), and the few `float` quantities
that the driver only compares against exactly representable constants
are modelled as `ℚ` (all comparisons in the source involve constants
such as 0.125f, 0.25f, 0.5f, 1.0f, 2.0f that are exact binary floats,
so rational arithmetic agrees with the float execution on them).
-/

-- ### Register addresses (from `DRV8214.h`)

def DRV8214_CONFIG0 : Nat := 0x09
def DRV8214_CONFIG1 : Nat := 0x0A
def DRV8214_CONFIG2 : Nat := 0x0B
def DRV8214_CONFIG3 : Nat := 0x0C
def DRV8214_CONFIG4 : Nat := 0x0D
def DRV8214_REG_CTRL0 : Nat := 0x0E
def DRV8214_REG_CTRL1 : Nat := 0x0F
def DRV8214_REG_CTRL2 : Nat := 0x10
def DRV8214_RC_CTRL0 : Nat := 0x11
def DRV8214_RC_CTRL1 : Nat := 0x12
def DRV8214_RC_CTRL2 : Nat := 0x13
def DRV8214_RC_CTRL3 : Nat := 0x14

-- ### Bit masks (from `DRV8214.h`)

def CONFIG0_EN_OUT : Nat := 0x80
def CONFIG0_EN_OVP : Nat := 0x40
def CONFIG0_EN_STALL : Nat := 0x20
def CONFIG0_VM_GAIN_SEL : Nat := 0x08
def CONFIG0_CLR_CNT : Nat := 0x04

def CONFIG3_IMODE : Nat := 0xC0
def CONFIG3_SMODE : Nat := 0x20
def CONFIG3_INT_VREF : Nat := 0x10

def CONFIG4_PMODE : Nat := 0x08
def CONFIG4_I2C_BC : Nat := 0x04
def CONFIG4_I2C_EN_IN1 : Nat := 0x02
def CONFIG4_I2C_PH_IN2 : Nat := 0x01

def REG_CTRL0_REG_CTRL : Nat := 0x18
def REG_CTRL0_W_SCALE : Nat := 0x03

def RC_CTRL0_EN_RC : Nat := 0x80
def RC_CTRL0_RC_HIZ : Nat := 0x20
def RC_CTRL0_CS_GAIN_SEL : Nat := 0x07

def RC_CTRL2_INV_R_SCALE : Nat := 0xC0
def RC_CTRL2_KMC_SCALE : Nat := 0x30
def RC_CTRL2_RC_THR_SCALE : Nat := 0x18
def RC_CTRL2_RC_THR_HIGH : Nat := 0x03

-- ### Enums and the configuration mirror (from `DRV8214.h`)

inductive ControlMode
  | PWM
  | PH_EN
deriving DecidableEq

inductive RegulationMode
  | CURRENT_FIXED
  | CURRENT_CYCLES
  | SPEED
  | VOLTAGE
deriving DecidableEq

/-- The `DRV8214_Config` struct.  `Aipropri` is declared `uint8_t` in the
header, hence `Nat` here with the C++ float-to-unsigned truncation applied
at each assignment.  The source stores `Itrip` as the float
`Vref / (Ripropri * Aipropri)`; we keep that division as the explicit
numerator/denominator pair (`Itrip_num`, `Itrip_den`) so a zero divisor
stays visible instead of being collapsed by a total division operator. -/
structure Config where
  I2CControlled : Bool
  control_mode : ControlMode
  regulation_mode : RegulationMode
  voltage_range : Bool
  Vref : ℚ
  stall_enabled : Bool
  ovp_enabled : Bool
  stall_behavior : Bool
  bridge_behavior_thr_reached : Bool
  current_reg_mode : Nat
  Aipropri : Nat
  Itrip_num : ℚ
  Itrip_den : Nat
  MaxCurrent : ℚ
  w_scale : Nat
  verbose : Bool

/-- Bus / diagnostic events, one per transport write (a `modifyBit` or
`modifyField` also performs a preceding transport read) plus one `diag`
per serial print site. -/
inductive Ev
  | write (addr val : Nat)
  | modifyBit (addr mask : Nat) (enabled : Bool)
  | modifyField (addr mask value : Nat)
  | diag (msg : String)

/-- Driver state: the device's register file, the configuration mirror,
and the trace of events emitted so far. -/
structure St where
  regs : Nat → Nat
  config : Config
  trace : List Ev

def diag (s : St) (m : String) : St :=
  { s with trace := s.trace ++ [Ev.diag m] }

/-- Modelled from the spec: the Register Access Layer's `writeRegister`
(full-byte overwrite through the transport; the transport carries one
byte, hence the `% 256`).  The layer itself lives outside `src/`. -/
def writeRegister (s : St) (addr val : Nat) : St :=
  { s with
    regs := fun a => if a = addr then val % 256 else s.regs a
    trace := s.trace ++ [Ev.write addr val] }

/-- Modelled from the spec: `modifyRegisterBit` — read the current byte,
set or clear exactly the bits of `mask` according to `enabled`, write the
byte back; bits outside `mask` are unchanged.  The layer itself lives
outside `src/`; the C++ source calls it `modifyRegister`. -/
def modifyRegister (s : St) (addr mask : Nat) (enabled : Bool) : St :=
  { s with
    regs := fun a =>
      if a = addr then
        (if enabled then s.regs addr ||| mask else s.regs addr &&& (255 ^^^ mask)) % 256
      else s.regs a
    trace := s.trace ++ [Ev.modifyBit addr mask enabled] }

/-- Modelled from the spec: `modifyRegisterField` — read-modify-write
replacing the multi-bit field under `mask` with the (pre-shifted)
`value`; bits outside `mask` are unchanged.  The layer itself lives
outside `src/`; the C++ source calls it `modifyRegisterBits`. -/
def modifyRegisterBits (s : St) (addr mask value : Nat) : St :=
  { s with
    regs := fun a =>
      if a = addr then ((s.regs addr &&& (255 ^^^ mask)) ||| (value &&& mask)) % 256
      else s.regs a
    trace := s.trace ++ [Ev.modifyField addr mask value] }

-- ### Simple setters (from `DRV8214.cpp`)

def enableHbridge (s : St) : St :=
  modifyRegister s DRV8214_CONFIG0 CONFIG0_EN_OUT true

def disableHbridge (s : St) : St :=
  modifyRegister s DRV8214_CONFIG0 CONFIG0_EN_OUT false

/-- `DRV8214::setStallDetection`.  The source writes the `CONFIG0_EN_STALL`
mask to register `DRV8214_CONFIG3` (sic). -/
def setStallDetection (s : St) (stall_en : Bool) : St :=
  let s := { s with config := { s.config with stall_enabled := stall_en } }
  modifyRegister s DRV8214_CONFIG3 CONFIG0_EN_STALL stall_en

/-- `DRV8214::setOvervoltageProtection`.  The source passes the literal
`true` to the register write, not the parameter `OVP`. -/
def setOvervoltageProtection (s : St) (OVP : Bool) : St :=
  let s := { s with config := { s.config with ovp_enabled := OVP } }
  modifyRegister s DRV8214_CONFIG0 CONFIG0_EN_OVP true

def resetRippleCounter (s : St) : St :=
  modifyRegister s DRV8214_CONFIG0 CONFIG0_CLR_CNT true

/-- `DRV8214::setCurrentRegMode`: the capped 0..3 mode is remapped in the
switch to the pre-shifted register value (0x00/0x40/0x80/0xC0), and that
remapped value is what gets stored in the configuration mirror. -/
def setCurrentRegMode (s : St) (mode0 : Nat) : St :=
  let m := if mode0 > 3 then 3 else mode0
  let m := if m = 0 then 0x00 else if m = 1 then 0x40 else if m = 2 then 0x80 else 0xC0
  let s := { s with config := { s.config with current_reg_mode := m } }
  modifyRegisterBits s DRV8214_CONFIG3 CONFIG3_IMODE m

def setStallBehavior (s : St) (behavior : Bool) : St :=
  let s := { s with config := { s.config with stall_behavior := behavior } }
  modifyRegister s DRV8214_CONFIG3 CONFIG3_SMODE behavior

def setBridgeBehaviorThresholdReached (s : St) (stops : Bool) : St :=
  let s := { s with config := { s.config with bridge_behavior_thr_reached := stops } }
  modifyRegister s DRV8214_RC_CTRL0 RC_CTRL0_RC_HIZ stops

-- ### Unit Scaling Engine (from `DRV8214.cpp`)

/-- C++ conversion of a nonnegative in-range `float` to an unsigned
integer type: truncation toward zero, i.e. the floor for the nonnegative
values (all below 256) that the source converts. -/
def u8ofRat (q : ℚ) : Nat := (Int.floor q).toNat

/-- The `scaleOptions` table of `DRV8214::setRippleSpeed`:
(scale factor, selector bits), smallest scale first. -/
def speedScaleOptions : List (Nat × Nat) := [(16, 0), (32, 1), (64, 2), (128, 3)]

/-- The `scaleOptions` table of `DRV8214::setRippleCountThreshold`. -/
def thrScaleOptions : List (Nat × Nat) := [(2, 0), (8, 1), (16, 2), (64, 3)]

/-- The scale-search loop shared by `setRippleSpeed` and
`setRippleCountThreshold`:
for each option, if `v >= scale` the running mantissa is overwritten with
`v / scale`, and the option is accepted (returning its selector bits) as
soon as that quotient is `< limit`; if the list is exhausted the loop
falls through with the last assigned mantissa and the initial selector
`0b00` (`W_SCALE` / `rc_thr_scale_bits` keep their initialisation). -/
def encLoop (v limit : Nat) : Nat → List (Nat × Nat) → Nat × Nat
  | acc, [] => (acc, 0)
  | acc, (scale, bits) :: rest =>
    if scale ≤ v then
      if v / scale < limit then (v / scale, bits) else encLoop v limit (v / scale) rest
    else encLoop v limit acc rest

/-- The encoding computed by `DRV8214::setRippleSpeed` before the
registers are written: clamp to `MAX_SPEED = 32640`, run the scale
search with an 8-bit limit (`WSET_VSET < 255` in the source), mask the
mantissa to 8 bits.  Returns (`WSET_VSET`, `W_SCALE`). -/
def speedEncode (speed0 : Nat) : Nat × Nat :=
  let speed := if speed0 > 32640 then 32640 else speed0
  let e := encLoop speed 255 speed speedScaleOptions
  (e.1 % 256, e.2)

/-- Scale factor of each `W_SCALE` selector, per `speedScaleOptions`. -/
def speedScale (bits : Nat) : Nat :=
  if bits = 0 then 16 else if bits = 1 then 32 else if bits = 2 then 64 else 128

/-- Decoding per the spec: `value = mantissa × scaleTable[selector].scaleFactor`. -/
def speedDecode (e : Nat × Nat) : Nat := e.1 * speedScale e.2

/-- The encoding computed by `DRV8214::setRippleCountThreshold` before
the registers are written: clamp to 65535, run the scale search with a
10-bit limit (`rc_thr < 1024`), mask the mantissa to 10 bits.
Returns (`rc_thr`, `rc_thr_scale_bits`). -/
def thrEncode (threshold0 : Nat) : Nat × Nat :=
  let threshold := if threshold0 > 65535 then 65535 else threshold0
  let e := encLoop threshold 1024 threshold thrScaleOptions
  (e.1 % 1024, e.2)

/-- Scale factor of each `RC_THR_SCALE` selector, per `thrScaleOptions`. -/
def thrScale (bits : Nat) : Nat :=
  if bits = 0 then 2 else if bits = 1 then 8 else if bits = 2 then 16 else 64

/-- Decoding per the spec: `value = mantissa × scaleTable[selector].scaleFactor`. -/
def thrDecode (e : Nat × Nat) : Nat := e.1 * thrScale e.2

/-- `DRV8214::setRippleSpeed`.  The final `modifyRegister` call passes the
`uint8_t` value `W_SCALE` where the register layer takes a `bool`
`enabled`, so C++ converts it to `W_SCALE != 0`. -/
def setRippleSpeed (s : St) (speed0 : Nat) : St :=
  let e := speedEncode speed0
  let s := { s with config := { s.config with w_scale := e.2 } }
  let s := if s.config.verbose then diag s "WSET_VSET | W_SCALE | Effective Target Speed" else s
  let s := writeRegister s DRV8214_REG_CTRL1 e.1
  modifyRegister s DRV8214_REG_CTRL0 REG_CTRL0_W_SCALE (e.2 != 0)

/-- `DRV8214::setVoltageSpeed`.  Float arithmetic modelled exactly over
`ℚ` with round-half-up; no claim inspects the numeric value written. -/
def setVoltageSpeed (s : St) (voltage0 : ℚ) : St :=
  let v := if voltage0 < 0 then 0 else voltage0
  if s.config.voltage_range then
    let v := if v > 392/100 then 392/100 else v
    writeRegister s DRV8214_REG_CTRL1 (u8ofRat (v * (255 / (392/100)) + 1/2))
  else
    let v := if v > 157/10 then 11 else v
    writeRegister s DRV8214_REG_CTRL1 (u8ofRat (v * (255 / (157/10)) + 1/2))

/-- `DRV8214::setRippleCountThreshold`.  Note the split of the 10-bit
mantissa: the low byte goes to `RC_CTRL1` by full-byte write, and the
upper two bits and the scale selector go to `RC_CTRL2` by a full-byte
`writeRegister` of `(rc_thr_high << 6) | (rc_thr_scale_bits << 2)`. -/
def setRippleCountThreshold (s : St) (threshold0 : Nat) : St :=
  let e := thrEncode threshold0
  let s := diag s "RC_THR | RC_THR_SCALE"
  let lo := e.1 % 256
  let hi := (e.1 / 256) % 4
  let s := writeRegister s DRV8214_RC_CTRL1 lo
  writeRegister s DRV8214_RC_CTRL2 ((hi <<< 6) ||| (e.2 <<< 2))

/-- The `CS_GAIN_SEL` selection chain of
`DRV8214::setRegulationAndStallCurrent`: returns
(`cs_gain_sel`, gain in A/A as written in the source, `MaxCurrent`). -/
def csGainSelect (requested_current : ℚ) : Nat × ℚ × ℚ :=
  if requested_current < 125/1000 then (7, 5560/1000000, 125/1000)
  else if requested_current < 25/100 then (6, 5560/1000000, 25/100)
  else if requested_current < 5/10 then (3, 1125/1000000, 5/10)
  else if requested_current < 1 then (2, 1125/1000000, 1)
  else if requested_current < 2 then (1, 225/1000000, 2)
  else (0, 225/1000000, 4)

/-- `DRV8214::setRegulationAndStallCurrent`.  `Rip` is the driver's
`Ripropri` sense-resistor constant.  `config.Aipropri` is `uint8_t`, so
the assignment truncates the sub-unit gain; the `Itrip` float division
`config.Vref / (Ripropri * config.Aipropri)` is recorded as its
numerator and (integer) denominator. -/
def setRegulationAndStallCurrent (Rip : Nat) (s : St) (requested_current : ℚ) : St :=
  let sel := csGainSelect requested_current
  let s := { s with config := { s.config with
    Aipropri := u8ofRat sel.2.1
    MaxCurrent := sel.2.2 } }
  let s := modifyRegisterBits s DRV8214_RC_CTRL0 RC_CTRL0_CS_GAIN_SEL sel.1
  let s := { s with config := { s.config with
    Itrip_num := s.config.Vref
    Itrip_den := Rip * s.config.Aipropri } }
  if s.config.verbose then diag s "Requested I | Chosen CS_GAIN_SEL | Aipropri | Actual Itrip" else s

-- ### Motion Control Sequencer (from `DRV8214.cpp`)

def turnForward (Rip : Nat) (s : St) (speed : Nat) (voltage requested_current : ℚ) : St :=
  let s := disableHbridge s
  let s :=
    match s.config.regulation_mode with
    | RegulationMode.CURRENT_FIXED => setRegulationAndStallCurrent Rip s requested_current
    | RegulationMode.CURRENT_CYCLES => setRegulationAndStallCurrent Rip s requested_current
    | RegulationMode.SPEED => setRippleSpeed s speed
    | RegulationMode.VOLTAGE => setVoltageSpeed s voltage
  let s := enableHbridge s
  let s :=
    if s.config.control_mode = ControlMode.PWM then
      let s := modifyRegister s DRV8214_CONFIG4 CONFIG4_I2C_EN_IN1 true
      modifyRegister s DRV8214_CONFIG4 CONFIG4_I2C_PH_IN2 false
    else
      let s := modifyRegister s DRV8214_CONFIG4 CONFIG4_I2C_EN_IN1 true
      modifyRegister s DRV8214_CONFIG4 CONFIG4_I2C_PH_IN2 true
  if s.config.verbose then diag s "Turning Forward" else s

/-- `DRV8214::turnReverse` (note: unlike `turnForward`, the source calls
`enableHbridge` before the quantity write and never disables first). -/
def turnReverse (Rip : Nat) (s : St) (speed : Nat) (voltage requested_current : ℚ) : St :=
  let s := enableHbridge s
  let s :=
    match s.config.regulation_mode with
    | RegulationMode.CURRENT_FIXED => setRegulationAndStallCurrent Rip s requested_current
    | RegulationMode.CURRENT_CYCLES => setRegulationAndStallCurrent Rip s requested_current
    | RegulationMode.SPEED => setRippleSpeed s speed
    | RegulationMode.VOLTAGE => setVoltageSpeed s voltage
  let s :=
    if s.config.control_mode = ControlMode.PWM then
      let s := modifyRegister s DRV8214_CONFIG4 CONFIG4_I2C_EN_IN1 false
      modifyRegister s DRV8214_CONFIG4 CONFIG4_I2C_PH_IN2 true
    else
      let s := modifyRegister s DRV8214_CONFIG4 CONFIG4_I2C_EN_IN1 true
      modifyRegister s DRV8214_CONFIG4 CONFIG4_I2C_PH_IN2 false
  if s.config.verbose then diag s "Turning Reverse" else s

/-- `DRV8214::coastMotor`.  The H-bridge is enabled before the
control-mode branch; in PH/EN mode the branch only prints the
unsupported-combination message to the diagnostic sink. -/
def coastMotor (s : St) : St :=
  let s := enableHbridge s
  let s :=
    if s.config.control_mode = ControlMode.PWM then
      let s := modifyRegister s DRV8214_CONFIG4 CONFIG4_I2C_EN_IN1 false
      modifyRegister s DRV8214_CONFIG4 CONFIG4_I2C_PH_IN2 false
    else
      diag s "PH EN mode does not support coast while awake"
  diag s "Cosating Motor"

def turnXRipples (Rip : Nat) (s : St) (ripples_target : Nat) (stops direction : Bool)
    (speed : Nat) (voltage requested_current : ℚ) : St :=
  let s := resetRippleCounter s
  let s := setRippleCountThreshold s ripples_target
  let s := if stops ≠ s.config.bridge_behavior_thr_reached
           then setBridgeBehaviorThresholdReached s stops else s
  if direction then turnForward Rip s speed voltage requested_current
  else turnReverse Rip s speed voltage requested_current

/-- `DRV8214::turnXRevolutions`.  `ripples_target` is a `uint8_t`, so the
product `revolutions_target * ripples_per_revolution` is stored modulo
256 before delegating to `turnXRipples`. -/
def turnXRevolutions (Rip rpr : Nat) (s : St) (revolutions_target : Nat)
    (stops direction : Bool) (speed : Nat) (voltage requested_current : ℚ) : St :=
  let ripples_target := (revolutions_target * rpr) % 256
  turnXRipples Rip s ripples_target stops direction speed voltage requested_current

-- ### Claim-side definitions

/-- The six CS_GAIN_SEL settings of Table 8-7 as an ordered table from
most sensitive (ceiling 0.125 A) to least sensitive (ceiling 4 A); each
entry is (selector, gain in A/A, maximum current). -/
def csGainTable : List (Nat × ℚ × ℚ) :=
  [(7, 5560/1000000, 125/1000), (6, 5560/1000000, 25/100), (3, 1125/1000000, 5/10),
   (2, 1125/1000000, 1), (1, 225/1000000, 2), (0, 225/1000000, 4)]

/-- The amended C2 selection rule: walk `csGainTable` from most to least
sensitive and take the first setting whose ceiling is strictly greater
than the request; requests not strictly below any ceiling (i.e. at or
above 4 A) fall back to the 4 A setting. -/
def amendedGainSelect (requested_current : ℚ) : Nat × ℚ × ℚ :=
  (csGainTable.find? (fun e => decide (requested_current < e.2.2))).getD (0, 225/1000000, 4)

/-- Events that write the `RC_HIZ` (bridge-behavior-on-threshold) bit of
`RC_CTRL0`: any full-byte write to `RC_CTRL0`, or a masked write whose
mask covers bit 5. -/
def touchesBridgePolicyBit : Ev → Bool
  | Ev.write a _ => a == DRV8214_RC_CTRL0
  | Ev.modifyBit a m _ => a == DRV8214_RC_CTRL0 && (m &&& RC_CTRL0_RC_HIZ) != 0
  | Ev.modifyField a m _ => a == DRV8214_RC_CTRL0 && (m &&& RC_CTRL0_RC_HIZ) != 0
  | Ev.diag _ => false

-- ### Baseline states for concrete evaluations

/-- The `DRV8214_Config` default member values from the header
(`Itrip = 0.0f` recorded as the pair 0 / 1). -/
def cfg0 : Config :=
  { I2CControlled := true, control_mode := ControlMode.PWM
    regulation_mode := RegulationMode.SPEED, voltage_range := true
    Vref := 1/2, stall_enabled := true, ovp_enabled := true
    stall_behavior := false, bridge_behavior_thr_reached := false
    current_reg_mode := 0, Aipropri := 0, Itrip_num := 0, Itrip_den := 1
    MaxCurrent := 0, w_scale := 0, verbose := false }

/-- A driver state with an all-zero register file, default mirror and an
empty trace. -/
def st0 : St := { regs := fun _ => 0, config := cfg0, trace := [] }

/-- Same as `st0` but with the PH/EN control-interface mode mirrored. -/
def stPHEN : St := { st0 with config := { cfg0 with control_mode := ControlMode.PH_EN } }

/-- Same as `st0` but with the two KMC-scale bits of `RC_CTRL2` set on
the device. -/
def stKMC : St := { st0 with regs := fun a => if a = DRV8214_RC_CTRL2 then 0x30 else 0 }

-- ### Helper lemmas

/-- The configuration mirror after `setRegulationAndStallCurrent`, as a
single record equation. -/
theorem setRegCurrent_config (Rip : Nat) (s : St) (rc : ℚ) :
    (setRegulationAndStallCurrent Rip s rc).config =
      { s.config with
        Aipropri := u8ofRat (csGainSelect rc).2.1
        MaxCurrent := (csGainSelect rc).2.2
        Itrip_num := s.config.Vref
        Itrip_den := Rip * u8ofRat (csGainSelect rc).2.1 } := by
  simp only [setRegulationAndStallCurrent, modifyRegisterBits, diag]
  split <;> rfl

-- ### Claim theorems

/-- Claim C1: the encoder does iterate the table smallest scale first and
the request 1000 does give mantissa 62, scale-16 selector and effective
value 992 — but the acceptance test in the source is `WSET_VSET < 255`,
not `mantissa < 2^8 = 256`: at request 4080, whose scale-16 mantissa
4080/16 = 255 fits in 8 bits, the encoder skips to scale 32 and returns
mantissa 127; and at the clamped ceiling 32640 no option is accepted at
all, so the selector falls back to 0 (scale 16) with mantissa 255,
i.e. an effective value of 4080 instead of 32640. -/
theorem rippleSpeed_mantissa_boundary_eval :
    speedEncode 1000 = (62, 0) ∧ speedDecode (speedEncode 1000) = 992
      ∧ 4080 / 16 = 255 ∧ 4080 / 16 < 256 ∧ speedEncode 4080 = (127, 1)
      ∧ speedEncode 32640 = (255, 0)
      ∧ speedDecode (speedEncode 32640) = 4080 := by decide

/-- Claim C3: writing the ripple-count threshold does not preserve the
other fields of `RC_CTRL2`: the source issues a full-byte
`writeRegister` of `(rc_thr_high << 6) | (rc_thr_scale_bits << 2)`, so a
previously set KMC-scale field (0x30) is zeroed by programming threshold
500, and at threshold 65535 the mantissa's upper bits land in bits 7-6 —
the `INV_R_SCALE` field — while the documented `RC_THR_HIGH` field
(bits 1-0) stays 0. -/
theorem rippleCountThreshold_clobbers_rc_ctrl2 :
    stKMC.regs DRV8214_RC_CTRL2 = 0x30
      ∧ (setRippleCountThreshold stKMC 500).regs DRV8214_RC_CTRL2 = 0
      ∧ thrEncode 65535 = (1023, 3)
      ∧ (setRippleCountThreshold st0 65535).regs DRV8214_RC_CTRL2 = 0xCC
      ∧ 0xCC &&& RC_CTRL2_INV_R_SCALE = 0xC0
      ∧ 0xCC &&& RC_CTRL2_RC_THR_HIGH = 0 := by decide

/-- Claim C4: the mirror/device pairing is broken by both cited setters:
`setOvervoltageProtection false` records `false` in the mirror but
writes the literal `true` to the device OVP bit (the parameter is
ignored in the register call), and `setCurrentRegMode 1` stores the
pre-shifted register encoding 0x40 in the mirror's `current_reg_mode`
field instead of the logical value 1. -/
theorem ovp_and_current_reg_mode_mirror_eval :
    (setOvervoltageProtection st0 false).config.ovp_enabled = false
      ∧ (setOvervoltageProtection st0 false).regs DRV8214_CONFIG0 &&& CONFIG0_EN_OVP
          = CONFIG0_EN_OVP
      ∧ (setCurrentRegMode st0 1).config.current_reg_mode = 0x40
      ∧ (setCurrentRegMode st0 2).config.current_reg_mode = 0x80 := by decide

/-- Claim C8: the two options are not carried by distinct fields:
`setStallDetection` writes mask `CONFIG0_EN_STALL` (0x20) to register
`CONFIG3`, which is exactly the `CONFIG3_SMODE` bit that
`setStallBehavior` writes, so `setStallDetection false` clears the
stall-behavior bit that `setStallBehavior true` had just set. -/
theorem stall_detection_behavior_overlap_eval :
    CONFIG0_EN_STALL = CONFIG3_SMODE
      ∧ (setStallBehavior st0 true).regs DRV8214_CONFIG3 &&& CONFIG3_SMODE = CONFIG3_SMODE
      ∧ (setStallDetection (setStallBehavior st0 true) false).regs DRV8214_CONFIG3
          &&& CONFIG3_SMODE = 0 := by decide

/-- Claim C7 (counterexample): 32640 is inside the claimed speed domain
[0, 32640], but its encoding decodes to 4080, which is more than one
scale factor (even the largest, 128) below the request. -/
theorem encode_decode_ceiling_counterexample :
    speedDecode (speedEncode 32640) = 4080 ∧ 4080 + 128 < 32640 := by decide

/-- Claim C5 (counterexample): in PH/EN mode `coastMotor` is not free of
device register writes: starting from a device with the H-bridge
disabled, it sets the `EN_OUT` bit of `CONFIG0` (the `enableHbridge`
call precedes the control-mode branch). -/
theorem coastMotor_phen_writes_counterexample :
    stPHEN.regs DRV8214_CONFIG0 = 0
      ∧ (coastMotor stPHEN).regs DRV8214_CONFIG0 = CONFIG0_EN_OUT := by decide

/-- Claim C2 (counterexample): at the exact bracket boundary 0.125 A the
source's strict comparison selects the 0.25 A setting even though the
most sensitive setting's ceiling (0.125 A) already covers the request,
and the mirrored trip-current division has denominator
`Ripropri * Aipropri = 0` (not `senseResistance × gainFactor`, which is
nonzero), because the `uint8_t` mirror field truncates the gain. -/
theorem csGainSelect_boundary_counterexample :
    (setRegulationAndStallCurrent 100 st0 (125/1000)).config.MaxCurrent = 1/4
      ∧ (125/1000 : ℚ) ≤ 125/1000
      ∧ (setRegulationAndStallCurrent 100 st0 (125/1000)).config.Itrip_den = 0
      ∧ (100 : ℚ) * (5560/1000000) ≠ 0 := by
  have hsel : csGainSelect (125/1000) = (6, 5560/1000000, 25/100) := by
    norm_num [csGainSelect]
  have hcfg := setRegCurrent_config 100 st0 (125/1000)
  rw [hsel] at hcfg
  refine ⟨?_, le_refl _, ?_, by norm_num⟩
  · rw [hcfg]; norm_num
  · rw [hcfg]
    show 100 * u8ofRat (5560/1000000) = 0
    norm_num [u8ofRat]

/-- Claim C10: every branch of the gain selection assigns one of the
sub-unit gains 225e-6, 1125e-6 or 5560e-6 A/A; stored into the `uint8_t`
mirror field `Aipropri` it truncates to 0, so on every call the
trip-current computation `Vref / (Ripropri * Aipropri)` has an integer
denominator of exactly 0 — a division by zero. -/
theorem aipropri_truncation_div_by_zero (Rip : Nat) (s : St) (requested_current : ℚ) :
    ((csGainSelect requested_current).2.1 = 225/1000000
        ∨ (csGainSelect requested_current).2.1 = 1125/1000000
        ∨ (csGainSelect requested_current).2.1 = 5560/1000000)
      ∧ (setRegulationAndStallCurrent Rip s requested_current).config.Aipropri = 0
      ∧ (setRegulationAndStallCurrent Rip s requested_current).config.Itrip_den = 0 := by
  have hz : u8ofRat (csGainSelect requested_current).2.1 = 0 := by
    unfold csGainSelect
    split_ifs <;> norm_num [u8ofRat]
  have hcfg := setRegCurrent_config Rip s requested_current
  refine ⟨?_, ?_, ?_⟩
  · unfold csGainSelect
    split_ifs <;> norm_num
  · rw [hcfg]
    exact hz
  · rw [hcfg]
    show Rip * u8ofRat (csGainSelect requested_current).2.1 = 0
    rw [hz, Nat.mul_zero]

/-- Claim C9: `turnXRevolutions` stores the product
`revolutions_target * ripples_per_revolution` in a `uint8_t`, so the
value handed to the threshold-programming path is the product modulo
256, and whenever the true product is at least 256 the programmed
target is strictly smaller than the requested number of ripples. -/
theorem turnXRevolutions_mod256 (Rip rpr : Nat) (s : St) (revolutions_target : Nat)
    (stops direction : Bool) (speed : Nat) (voltage requested_current : ℚ) :
    turnXRevolutions Rip rpr s revolutions_target stops direction speed voltage requested_current
        = turnXRipples Rip s ((revolutions_target * rpr) % 256) stops direction speed
            voltage requested_current
      ∧ (256 ≤ revolutions_target * rpr →
          (revolutions_target * rpr) % 256 < revolutions_target * rpr) := by
  refine ⟨rfl, fun h => ?_⟩
  have h2 : (revolutions_target * rpr) % 256 < 256 := Nat.mod_lt _ (by norm_num)
  omega

/-- Claim C9 (witness): 100 revolutions at 3 ripples per revolution wrap
to a programmed target of 44 < 300. -/
theorem turnXRevolutions_mod256_witness :
    turnXRevolutions 100 3 st0 100 false true 0 0 0
        = turnXRipples 100 st0 ((100 * 3) % 256) false true 0 0 0
      ∧ (100 * 3) % 256 < 100 * 3 :=
  ⟨(turnXRevolutions_mod256 100 3 st0 100 false true 0 0 0).1,
   (turnXRevolutions_mod256 100 3 st0 100 false true 0 0 0).2 (by norm_num)⟩

/-- Claim C5 (amended): when the control-interface mode is PH/EN,
`coastMotor` reports the unsupported combination via the diagnostic sink
and writes no direction bit — `CONFIG4` is untouched — but it is not
free of register writes: the initial `enableHbridge` call sets the
`EN_OUT` bit of `CONFIG0` before the control-mode branch is taken, and
that is the only register write performed. -/
theorem coastMotor_phen_amended (s : St)
    (h : s.config.control_mode = ControlMode.PH_EN) :
    coastMotor s
        = diag (diag (enableHbridge s) "PH EN mode does not support coast while awake")
            "Cosating Motor"
      ∧ (coastMotor s).regs DRV8214_CONFIG4 = s.regs DRV8214_CONFIG4
      ∧ (coastMotor s).regs DRV8214_CONFIG0
          = (s.regs DRV8214_CONFIG0 ||| CONFIG0_EN_OUT) % 256 := by
  refine ⟨?_, ?_, ?_⟩ <;>
    simp [coastMotor, enableHbridge, modifyRegister, diag, h,
      DRV8214_CONFIG0, DRV8214_CONFIG4, CONFIG0_EN_OUT]

/-- Claim C5 (witness for the amended statement), at the concrete PH/EN
baseline state. -/
theorem coastMotor_phen_amended_witness :
    coastMotor stPHEN
        = diag (diag (enableHbridge stPHEN) "PH EN mode does not support coast while awake")
            "Cosating Motor"
      ∧ (coastMotor stPHEN).regs DRV8214_CONFIG4 = stPHEN.regs DRV8214_CONFIG4
      ∧ (coastMotor stPHEN).regs DRV8214_CONFIG0
          = (stPHEN.regs DRV8214_CONFIG0 ||| CONFIG0_EN_OUT) % 256 :=
  coastMotor_phen_amended stPHEN rfl

set_option maxHeartbeats 4000000 in
/-- Claim C6: `turnXRipples` is exactly the sequence: reset the ripple
counter, then program the ripple-count threshold, then write the
bridge-behavior-on-threshold bit only if the requested policy differs
from the mirrored policy, then perform the Forward or Reverse
transition; and when the requested policy equals the mirrored policy, no
event of the whole operation touches the `RC_HIZ` bit of `RC_CTRL0`, so
no bridge-behavior register write is issued. -/
theorem turnXRipples_order_and_skip (Rip : Nat) (s : St) (n : Nat) (stops direction : Bool)
    (speed : Nat) (voltage requested_current : ℚ) (htrace : s.trace = []) :
    turnXRipples Rip s n stops direction speed voltage requested_current
        = (let s2 := setRippleCountThreshold (resetRippleCounter s) n
           let s3 := if stops ≠ s.config.bridge_behavior_thr_reached
                     then setBridgeBehaviorThresholdReached s2 stops else s2
           if direction then turnForward Rip s3 speed voltage requested_current
           else turnReverse Rip s3 speed voltage requested_current)
      ∧ (stops = s.config.bridge_behavior_thr_reached →
          (turnXRipples Rip s n stops direction speed voltage requested_current).trace.all
            (fun e => !touchesBridgePolicyBit e) = true) := by
  obtain ⟨regs, cfg, tr⟩ := s
  obtain ⟨i2c, cm, rm, vr, vf, se, ov, sb, bb, crm, aip, inum, iden, mc, ws, vb⟩ := cfg
  subst htrace
  refine ⟨rfl, fun hmirror => ?_⟩
  subst hmirror
  cases stops <;> cases direction <;> cases rm <;> cases cm <;> cases vb <;> cases vr <;> rfl

/-- Claim C6 (witness): the concrete counted move of 45 ripples from the
baseline state, whose requested policy `false` equals the mirrored
default, emits no bridge-policy write. -/
theorem turnXRipples_order_and_skip_witness :
    (turnXRipples 100 st0 45 false true 1000 0 0).trace.all
      (fun e => !touchesBridgePolicyBit e) = true :=
  (turnXRipples_order_and_skip 100 st0 45 false true 1000 0 0 rfl).2 rfl

/-- Claim C2 (amended): `setRegulationAndStallCurrent` walks the six
settings from most sensitive to least sensitive and selects the first
whose ceiling is STRICTLY GREATER than the requested current (so a
request exactly at a bracket ceiling takes the next, less sensitive
setting; requests below 0.125 A land on the most sensitive setting and
requests at or above 4 A fall back to the 4 A setting), and afterwards
the mirrored trip current is the division of `Vref` by
`Ripropri * Aipropri` where `Aipropri` is the 8-bit truncation of the
chosen gain — a denominator of exactly 0, not
`senseResistance × gainFactor`. -/
theorem csGainSelect_strict_and_itrip_den_zero (requested_current : ℚ) :
    csGainSelect requested_current = amendedGainSelect requested_current
      ∧ ∀ (Rip : Nat) (s : St),
          (setRegulationAndStallCurrent Rip s requested_current).config.Itrip_den = 0 := by
  have hz : u8ofRat (csGainSelect requested_current).2.1 = 0 := by
    unfold csGainSelect
    split_ifs <;> norm_num [u8ofRat]
  constructor
  · unfold csGainSelect amendedGainSelect csGainTable
    split_ifs with h1 h2 h3 h4 h5
    · simp [List.find?, decide_eq_true h1]
    · simp [List.find?, decide_eq_false h1, decide_eq_true h2]
    · simp [List.find?, decide_eq_false h1, decide_eq_false h2,
        decide_eq_true h3]
    · simp [List.find?, decide_eq_false h1, decide_eq_false h2,
        decide_eq_false h3, decide_eq_true h4]
    · simp [List.find?, decide_eq_false h1, decide_eq_false h2,
        decide_eq_false h3, decide_eq_false h4, decide_eq_true h5]
    · cases h6 : decide (requested_current < 4) <;>
        simp [List.find?, decide_eq_false h1, decide_eq_false h2,
          decide_eq_false h3, decide_eq_false h4,
          decide_eq_false h5, h6]
  · intro Rip s
    rw [setRegCurrent_config]
    show Rip * u8ofRat (csGainSelect requested_current).2.1 = 0
    rw [hz, Nat.mul_zero]

-- ### Region lemmas for the scale-search loop

/-- Acceptance at scale 16 (first option) for speeds with an 8-bit
scale-16 mantissa. -/
theorem encLoop_speed_r1 (v : Nat) (h1 : 16 ≤ v) (hd : v / 16 < 255) :
    encLoop v 255 v speedScaleOptions = (v / 16, 0) := by
  simp only [speedScaleOptions, encLoop]
  rw [if_pos h1, if_pos hd]

/-- Acceptance at scale 32 after rejecting scale 16. -/
theorem encLoop_speed_r2 (v : Nat) (h1 : 4080 ≤ v) (hd : v / 32 < 255) :
    encLoop v 255 v speedScaleOptions = (v / 32, 1) := by
  simp only [speedScaleOptions, encLoop]
  rw [if_pos (show 16 ≤ v by omega), if_neg (show ¬ v / 16 < 255 by omega),
    if_pos (show 32 ≤ v by omega), if_pos hd]

/-- Acceptance at scale 64 after rejecting scales 16 and 32. -/
theorem encLoop_speed_r3 (v : Nat) (h1 : 8160 ≤ v) (hd : v / 64 < 255) :
    encLoop v 255 v speedScaleOptions = (v / 64, 2) := by
  simp only [speedScaleOptions, encLoop]
  rw [if_pos (show 16 ≤ v by omega), if_neg (show ¬ v / 16 < 255 by omega),
    if_pos (show 32 ≤ v by omega), if_neg (show ¬ v / 32 < 255 by omega),
    if_pos (show 64 ≤ v by omega), if_pos hd]

/-- Acceptance at scale 128 after rejecting the three smaller scales. -/
theorem encLoop_speed_r4 (v : Nat) (h1 : 16320 ≤ v) (hd : v / 128 < 255) :
    encLoop v 255 v speedScaleOptions = (v / 128, 3) := by
  simp only [speedScaleOptions, encLoop]
  rw [if_pos (show 16 ≤ v by omega), if_neg (show ¬ v / 16 < 255 by omega),
    if_pos (show 32 ≤ v by omega), if_neg (show ¬ v / 32 < 255 by omega),
    if_pos (show 64 ≤ v by omega), if_neg (show ¬ v / 64 < 255 by omega),
    if_pos (show 128 ≤ v by omega), if_pos hd]

/-- Acceptance at scale 2 (first option) for thresholds with a 10-bit
scale-2 mantissa. -/
theorem encLoop_thr_r1 (v : Nat) (h1 : 2 ≤ v) (hd : v / 2 < 1024) :
    encLoop v 1024 v thrScaleOptions = (v / 2, 0) := by
  simp only [thrScaleOptions, encLoop]
  rw [if_pos h1, if_pos hd]

/-- Acceptance at scale 8 after rejecting scale 2. -/
theorem encLoop_thr_r2 (v : Nat) (h1 : 2048 ≤ v) (hd : v / 8 < 1024) :
    encLoop v 1024 v thrScaleOptions = (v / 8, 1) := by
  simp only [thrScaleOptions, encLoop]
  rw [if_pos (show 2 ≤ v by omega), if_neg (show ¬ v / 2 < 1024 by omega),
    if_pos (show 8 ≤ v by omega), if_pos hd]

/-- Acceptance at scale 16 after rejecting scales 2 and 8. -/
theorem encLoop_thr_r3 (v : Nat) (h1 : 8192 ≤ v) (hd : v / 16 < 1024) :
    encLoop v 1024 v thrScaleOptions = (v / 16, 2) := by
  simp only [thrScaleOptions, encLoop]
  rw [if_pos (show 2 ≤ v by omega), if_neg (show ¬ v / 2 < 1024 by omega),
    if_pos (show 8 ≤ v by omega), if_neg (show ¬ v / 8 < 1024 by omega),
    if_pos (show 16 ≤ v by omega), if_pos hd]

/-- Acceptance at scale 64 after rejecting the three smaller scales. -/
theorem encLoop_thr_r4 (v : Nat) (h1 : 16384 ≤ v) (hd : v / 64 < 1024) :
    encLoop v 1024 v thrScaleOptions = (v / 64, 3) := by
  simp only [thrScaleOptions, encLoop]
  rw [if_pos (show 2 ≤ v by omega), if_neg (show ¬ v / 2 < 1024 by omega),
    if_pos (show 8 ≤ v by omega), if_neg (show ¬ v / 8 < 1024 by omega),
    if_pos (show 16 ≤ v by omega), if_neg (show ¬ v / 16 < 1024 by omega),
    if_pos (show 64 ≤ v by omega), if_pos hd]

/-- Claim C7 (amended): with only the genuinely failing points excised —
speed requests 1..15 and threshold request 1 (whose mantissa is left
equal to the raw request, so the decode lands above the request) and
the speed ceiling 32640 itself (where the loop falls through and the
selector collapses to scale 16) — the round trip lies within one scale
factor of the chosen option at-or-below the request and never exceeds
the quantity's ceiling: for every speed in {0} ∪ [16, 32639] and every
ripple-count threshold in {0} ∪ [2, 65535],
`v < decode(encode(v)) + scaleFactor`, `decode(encode(v)) ≤ v` and
`decode(encode(v)) ≤ ceiling` (at `v = 0` the decode is exactly 0). -/
theorem encode_decode_within_step_amended :
    (∀ v : Nat, (v = 0 ∨ 16 ≤ v) → v ≤ 32639 →
        v < speedDecode (speedEncode v) + speedScale (speedEncode v).2
        ∧ speedDecode (speedEncode v) ≤ v
        ∧ speedDecode (speedEncode v) ≤ 32640)
  ∧ (∀ v : Nat, (v = 0 ∨ 2 ≤ v) → v ≤ 65535 →
        v < thrDecode (thrEncode v) + thrScale (thrEncode v).2
        ∧ thrDecode (thrEncode v) ≤ v
        ∧ thrDecode (thrEncode v) ≤ 65535) := by
  constructor
  · intro v hl0 hu
    rcases hl0 with rfl | hl
    · decide
    have hcl : speedEncode v
        = ((encLoop v 255 v speedScaleOptions).1 % 256,
           (encLoop v 255 v speedScaleOptions).2) := by
      simp only [speedEncode]
      rw [if_neg (show ¬ v > 32640 by omega)]
    by_cases c1 : v ≤ 4079
    · rw [hcl, encLoop_speed_r1 v hl (by omega)]
      simp only [speedDecode, speedScale]
      norm_num
      omega
    · by_cases c2 : v ≤ 8159
      · rw [hcl, encLoop_speed_r2 v (by omega) (by omega)]
        simp only [speedDecode, speedScale]
        norm_num
        omega
      · by_cases c3 : v ≤ 16319
        · rw [hcl, encLoop_speed_r3 v (by omega) (by omega)]
          simp only [speedDecode, speedScale]
          norm_num
          omega
        · rw [hcl, encLoop_speed_r4 v (by omega) (by omega)]
          simp only [speedDecode, speedScale]
          norm_num
          omega
  · intro v hl0 hu
    rcases hl0 with rfl | hl
    · decide
    have hcl : thrEncode v
        = ((encLoop v 1024 v thrScaleOptions).1 % 1024,
           (encLoop v 1024 v thrScaleOptions).2) := by
      simp only [thrEncode]
      rw [if_neg (show ¬ v > 65535 by omega)]
    by_cases c1 : v ≤ 2047
    · rw [hcl, encLoop_thr_r1 v hl (by omega)]
      simp only [thrDecode, thrScale]
      norm_num
      omega
    · by_cases c2 : v ≤ 8191
      · rw [hcl, encLoop_thr_r2 v (by omega) (by omega)]
        simp only [thrDecode, thrScale]
        norm_num
        omega
      · by_cases c3 : v ≤ 16383
        · rw [hcl, encLoop_thr_r3 v (by omega) (by omega)]
          simp only [thrDecode, thrScale]
          norm_num
          omega
        · rw [hcl, encLoop_thr_r4 v (by omega) (by omega)]
          simp only [thrDecode, thrScale]
          norm_num
          omega

/-- Claim C7 (witness for the amended statement), at the spec's own
examples — speed 1000 (effective 992) and threshold 500 (effective
500) — and at the domain's zero point. -/
theorem encode_decode_within_step_witness :
    (1000 < speedDecode (speedEncode 1000) + speedScale (speedEncode 1000).2
      ∧ speedDecode (speedEncode 1000) ≤ 1000
      ∧ speedDecode (speedEncode 1000) ≤ 32640)
  ∧ (500 < thrDecode (thrEncode 500) + thrScale (thrEncode 500).2
      ∧ thrDecode (thrEncode 500) ≤ 500
      ∧ thrDecode (thrEncode 500) ≤ 65535)
  ∧ (0 < speedDecode (speedEncode 0) + speedScale (speedEncode 0).2
      ∧ speedDecode (speedEncode 0) ≤ 0)
  ∧ (0 < thrDecode (thrEncode 0) + thrScale (thrEncode 0).2
      ∧ thrDecode (thrEncode 0) ≤ 0) :=
  ⟨encode_decode_within_step_amended.1 1000 (Or.inr (by norm_num)) (by norm_num),
   encode_decode_within_step_amended.2 500 (Or.inr (by norm_num)) (by norm_num),
   ⟨(encode_decode_within_step_amended.1 0 (Or.inl rfl) (by norm_num)).1,
    (encode_decode_within_step_amended.1 0 (Or.inl rfl) (by norm_num)).2.1⟩,
   ⟨(encode_decode_within_step_amended.2 0 (Or.inl rfl) (by norm_num)).1,
    (encode_decode_within_step_amended.2 0 (Or.inl rfl) (by norm_num)).2.1⟩⟩
